import Mathlib

/-!
Verification of the company-catalog service (gartstein/xm).

Shallow embedding of the Go source:
 - internal/company/models (Company, CompanyUpdate, CompanyType)
 - internal/company/errors (sentinel errors) and Go error wrapping
 - internal/company/db (Repository over an in-memory store, with the
   GORM Updates semantics used by Repository.UpdateCompany)
 - internal/company/controller (CompanyService.CreateCompany,
   GetCompany, UpdateCompany)
 - internal/company/events (Producer.Produce over the bounded channel)
 - internal/company/auth (gRPC interceptor and HTTP middleware)
 - internal/company/handlers (converters, mapServiceError, the
   UpdateCompany/CreateCompany handler pipeline)
-/

namespace XM

/-! ## Go string primitives

Go strings are byte strings; len(s) counts UTF-8 bytes, and
strings.HasPrefix / strings.TrimPrefix operate on bytes.  On valid
UTF-8 data a byte-level prefix of whole characters corresponds exactly
to a character-level prefix, so the list-of-chars view below agrees
with Go on every value a Lean String can denote. -/

/-- Number of UTF-8 bytes used to encode a character (Go len semantics). -/
def charSize (c : Char) : Nat :=
  if c.val < 0x80 then 1 else if c.val < 0x800 then 2
  else if c.val < 0x10000 then 3 else 4

/-- Go len(s): the number of UTF-8 bytes of the string. -/
def golen (s : String) : Nat := (s.data.map charSize).sum

/-- Character-list prefix test; models Go strings.HasPrefix. -/
def listStartsWith : List Char → List Char → Bool
  | [], _ => true
  | _ :: _, [] => false
  | a :: as, b :: bs => a = b && listStartsWith as bs

/-- Go strings.HasPrefix. -/
def goStartsWith (s p : String) : Bool := listStartsWith p.data s.data

/-- Go strings.TrimPrefix: drops the leading occurrence of p, or returns
s unchanged when s does not start with p. -/
def goTrimStart (s p : String) : String :=
  if goStartsWith s p then ⟨s.data.drop p.data.length⟩ else s

/-! ## Go errors (internal/company/errors/errors.go plus fmt wrapping) -/

/-- Go error values as built in this codebase: sentinel errors made with
fmt.Errorf at package init, and wrapped errors made with fmt.Errorf
using a %w verb (message = pre ++ inner message ++ post). -/
inductive GoErr
  | sentinel (msg : String)
  | wrap (pre : String) (inner : GoErr) (post : String)
  deriving DecidableEq

/-- err.Error() for the error model. -/
def GoErr.message : GoErr → String
  | .sentinel m => m
  | .wrap pre inner post => pre ++ inner.message ++ post

/-- errors.Is: walks the %w wrapping chain looking for the target. -/
def goErrIs (e target : GoErr) : Bool :=
  match e with
  | .wrap pre inner post => (GoErr.wrap pre inner post = target) || goErrIs inner target
  | .sentinel m => GoErr.sentinel m = target

/-- errors.ErrNotFound. -/
def errNotFound : GoErr := .sentinel "not found"

/-- errors.ErrDuplicateName. -/
def errDuplicateName : GoErr := .sentinel "duplicate name"

/-- errors.ErrInvalidInput. -/
def errInvalidInput : GoErr := .sentinel "invalid input"

/-! ## Domain model (internal/company/models/company.go) -/

/-- models.CompanyType is a Go string type. -/
abbrev CompanyType := String

/-- models.Corporations. -/
def Corporations : CompanyType := "CORPORATIONS"

/-- models.NonProfit. -/
def NonProfit : CompanyType := "NON_PROFIT"

/-- models.Cooperative. -/
def Cooperative : CompanyType := "COOPERATIVE"

/-- models.SoleProprietorship. -/
def SoleProprietorship : CompanyType := "SOLE_PROPRIETORSHIP"

/-- uuid.UUID, abstracted to a natural number; uuid.Nil is 0 and every
identifier produced by uuid.New() is nonzero. -/
abbrev CompanyID := Nat

/-- uuid.Nil. -/
def nilID : CompanyID := 0

/-- models.Company.  CreatedAt/UpdatedAt are abstract instants (Nat). -/
structure Company where
  id : CompanyID
  name : String
  description : String
  employees : Int
  registered : Bool
  type : CompanyType
  createdAt : Nat
  updatedAt : Nat
  deriving DecidableEq

/-- models.CompanyUpdate: pointer fields allow partial updates; none
models a nil pointer. -/
structure CompanyUpdate where
  id : CompanyID
  name : Option String
  description : Option String
  employees : Option Int
  registered : Option Bool
  type : Option CompanyType
  deriving DecidableEq

/-! ## Repository (internal/company/db/db.go over an in-memory table)

The durable store is modelled as the list of rows of the companies
table.  The semantics of each method follow db.go together with the
GORM calls it makes, as exercised by the repository's own sqlite
tests (db_test.go). -/

abbrev Store := List Company

/-- Repository.CompanyExistsByName: SELECT count(name) WHERE name = ? LIMIT 1,
then count > 0. -/
def companyExistsByName (st : Store) (name : String) : Bool :=
  st.any (fun c => c.name = name)

/-- Repository.GetCompany: First(&company, "id = ?", id); none models
gorm.ErrRecordNotFound, which db.go converts to errors.ErrNotFound. -/
def repoGetCompany (st : Store) (id : CompanyID) : Option Company :=
  st.find? (fun c => c.id = id)

/-- Repository.CreateCompany: gorm Create inserts the row.  The schema
migrated from models.Company carries no unique constraint on name (the
domain struct has no gorm tags), so the insert itself cannot fail with
gorm.ErrDuplicatedKey; the in-memory collaborator is total. -/
def repoCreate (st : Store) (c : Company) : Store := st ++ [c]

/-- Whether GORM's Updates call builds an empty SET clause for this
patch.  Updates with a struct puts every non-zero field of the patch
into SET, including the non-zero primary key of the different-schema
CompanyUpdate struct; so SET is empty exactly when the id is the zero
uuid and every pointer field is nil.  With an empty SET clause GORM
issues no SQL and reports RowsAffected = 0. -/
def gormSetEmpty (u : CompanyUpdate) : Bool :=
  u.id == nilID && u.name.isNone && u.description.isNone
    && u.employees.isNone && u.registered.isNone && u.type.isNone

/-- Merge the SET clause of an update into a matched row.  Non-nil
pointer fields replace the stored fields; nil fields are absent from
SET and stay unchanged.  The patch id is also in SET but every matched
row already has that id, so it is not written here. -/
def applyUpdate (u : CompanyUpdate) (c : Company) : Company :=
  { c with
    name := u.name.getD c.name,
    description := u.description.getD c.description,
    employees := u.employees.getD c.employees,
    registered := u.registered.getD c.registered,
    type := u.type.getD c.type }

/-- Repository.UpdateCompany: Model(&Company).Where("id = ?", u.ID).Updates(u);
RowsAffected = 0 is converted to errors.ErrNotFound (db.go:75-77). -/
def repoUpdate (st : Store) (u : CompanyUpdate) : Option GoErr × Store :=
  if gormSetEmpty u then (some errNotFound, st)
  else if st.any (fun c => c.id = u.id) then
    (none, st.map (fun c => if c.id = u.id then applyUpdate u c else c))
  else (some errNotFound, st)

/-! ## Events (internal/company/events/kafka_producer.go) -/

/-- events.EventType is a Go string type. -/
abbrev EventType := String

/-- events.CompanyCreated. -/
def CompanyCreated : EventType := "company_created"

/-- events.CompanyUpdated. -/
def CompanyUpdated : EventType := "company_updated"

/-- events.CompanyDeleted. -/
def CompanyDeleted : EventType := "company_deleted"

/-- The producer's buffered channel: capacity fixed at construction,
queue holds the buffered, not-yet-consumed events in FIFO order. -/
structure Producer where
  capacity : Nat
  queue : List (EventType × Company)
  deriving DecidableEq

/-- events.NewProducer: make(chan Event, 1000). -/
def newProducer : Producer := { capacity := 1000, queue := [] }

/-- The warning log line emitted on a dropped event: message text plus
the event_type and company_id zap fields. -/
structure DropWarning where
  msg : String
  eventType : EventType
  companyId : CompanyID
  deriving DecidableEq

/-- Result of Producer.Produce: the new channel state and the warning,
if one was logged. -/
structure ProduceResult where
  producer : Producer
  warning : Option DropWarning
  deriving DecidableEq

/-- Producer.Produce: select with a default branch on the buffered
channel.  The send succeeds exactly when the buffer is below capacity;
otherwise the default branch runs, the new event is discarded and a
warning naming the event type and the company id is logged.  Both
branches return immediately: the operation is a total function and
never waits. -/
def produce (p : Producer) (et : EventType) (c : Company) : ProduceResult :=
  if p.queue.length < p.capacity then
    { producer := { p with queue := p.queue ++ [(et, c)] }, warning := none }
  else
    { producer := p,
      warning := some { msg := "Kafka producer queue full, dropping event",
                        eventType := et, companyId := c.id } }

/-! ## Controller (internal/company/controller/controller.go)

Each operation is a synchronous request/response against the store.
The result records the outcome, the store afterwards, the sequence of
repository calls issued, and the events handed to the producer by the
detached dispatch goroutine (fire-and-forget; recorded here as the
produce calls those tasks make). -/

/-- Outcome of a service call: the (company, error) pair returned to
the transport layer. -/
inductive SvcOutcome
  | ok (c : Company)
  | err (e : GoErr)
  deriving DecidableEq

/-- One call against the persistence collaborator. -/
inductive RepoCall
  | existsByName (name : String)
  | create (c : Company)
  | get (id : CompanyID)
  | update (u : CompanyUpdate)
  | delete (id : CompanyID)
  deriving DecidableEq

/-- Full observable effect of one service operation. -/
structure ServiceResult where
  outcome : SvcOutcome
  store : Store
  calls : List RepoCall
  dispatched : List (EventType × Company)
  deriving DecidableEq

/-- CompanyService.CreateCompany.  freshId models the uuid.New()
result, now the GORM-assigned create/update timestamps. -/
def serviceCreate (st : Store) (freshId : CompanyID) (now : Nat)
    (company : Company) : ServiceResult :=
  if company.name = "" ∨ 15 < golen company.name then
    { outcome := .err (.wrap "" errInvalidInput ": invalid name"),
      store := st, calls := [], dispatched := [] }
  else if company.description ≠ "" ∧ 3000 < golen company.description then
    { outcome := .err (.wrap "" errInvalidInput ": description too long"),
      store := st, calls := [], dispatched := [] }
  else if companyExistsByName st company.name then
    { outcome := .err errDuplicateName,
      store := st, calls := [.existsByName company.name], dispatched := [] }
  else
    let c := { company with id := freshId, createdAt := now, updatedAt := now }
    { outcome := .ok c,
      store := repoCreate st c,
      calls := [.existsByName company.name, .create c],
      dispatched := [(CompanyCreated, c)] }

/-- CompanyService.GetCompany. -/
def serviceGet (st : Store) (id : CompanyID) : ServiceResult :=
  match repoGetCompany st id with
  | some c => { outcome := .ok c, store := st, calls := [.get id], dispatched := [] }
  | none => { outcome := .err errNotFound, store := st, calls := [.get id], dispatched := [] }

/-- CompanyService.UpdateCompany: reject the zero uuid, delegate the
patch, then re-fetch the merged record for the return value and the
Updated event.  The two case splits of the Go code (on the update
error and on the re-fetch result) are written with Option.elim. -/
def serviceUpdate (st : Store) (u : CompanyUpdate) : ServiceResult :=
  if u.id = nilID then
    { outcome := .err (.wrap "" errInvalidInput ": invalid company ID"),
      store := st, calls := [], dispatched := [] }
  else
    ((repoUpdate st u).1).elim
      ((repoGetCompany (repoUpdate st u).2 u.id).elim
        { outcome := .err errNotFound, store := (repoUpdate st u).2,
          calls := [.update u, .get u.id], dispatched := [] }
        (fun c => { outcome := .ok c, store := (repoUpdate st u).2,
                    calls := [.update u, .get u.id],
                    dispatched := [(CompanyUpdated, c)] }))
      (fun e => { outcome := .err (if goErrIs e errNotFound then e
                                   else .wrap "failed to update company: " e ""),
                  store := (repoUpdate st u).2, calls := [.update u],
                  dispatched := [] })

/-! ## AuthGate (internal/company/auth)

Token verification (validateToken: HMAC signature and expiry checking
via the jwt library) is abstracted as a predicate on token strings;
both gates consult the same predicate, exactly as both call the shared
validateToken with the shared secret. -/

/-- Whether the call reaches the handler (and whether verified claims
were attached to the context first), or is short-circuited. -/
inductive CallOutcome
  | handlerReached (authenticated : Bool)
  | rejected (msg : String)
  deriving DecidableEq

/-- Result of the transport-specific token extraction. -/
inductive ExtractResult
  | ok (token : String)
  | err (msg : String)
  deriving DecidableEq

/-- auth.NewAuthInterceptor: the fixed protected-method set. -/
def protectedMethods : List String :=
  ["/company.v1.CompanyService/CreateCompany",
   "/company.v1.CompanyService/UpdateCompany",
   "/company.v1.CompanyService/DeleteCompany"]

/-- auth.extractTokenFromMetadata: first authorization metadata value;
requires the Bearer prefix, then strips it and rejects an empty rest. -/
def extractTokenFromMetadata (authHeaders : List String) : ExtractResult :=
  match authHeaders with
  | [] => .err "authorization header missing"
  | headerValue :: _ =>
    if ¬ goStartsWith headerValue "Bearer " then
      .err "invalid authorization format: missing Bearer prefix"
    else
      let tokenString := goTrimStart headerValue "Bearer "
      if tokenString = "" then .err "invalid authorization format: empty token"
      else .ok tokenString

/-- Interceptor.Unary: metadata is none when no incoming metadata is
attached to the context; otherwise the list of authorization values. -/
def grpcUnary (validate : String → Bool) (fullMethod : String)
    (md : Option (List String)) : CallOutcome :=
  if protectedMethods.contains fullMethod then
    match md with
    | none => .rejected "metadata missing"
    | some auths =>
      match extractTokenFromMetadata auths with
      | .err msg => .rejected msg
      | .ok tok =>
        if validate tok then .handlerReached true
        else .rejected "invalid token"
  else .handlerReached false

/-- An inbound HTTP request as the middleware sees it; Header.Get
returns the empty string when the Authorization header is absent. -/
structure HTTPRequest where
  method : String
  path : String
  authorization : String
  deriving DecidableEq

/-- auth.protectedRoutes: the method-to-path map in isProtectedRequest. -/
def protectedRoutes : List (String × String) :=
  [("POST", "/v1/companies"), ("PATCH", "/v1/companies/"),
   ("DELETE", "/v1/companies/")]

/-- auth.isProtectedRequest: indexing the Go map with a method that has
no entry yields the zero value "", and strings.HasPrefix(path, "") is
true for every path. -/
def isProtectedRequest (r : HTTPRequest) : Bool :=
  goStartsWith r.path (((protectedRoutes.lookup r.method).getD ""))

/-- auth.extractTokenFromHeader: rejects an absent header, then applies
strings.TrimPrefix (with no preceding HasPrefix check) and rejects an
empty remainder. -/
def extractTokenFromHeader (authHeader : String) : ExtractResult :=
  if authHeader = "" then .err "authorization header required"
  else
    let tokenString := goTrimStart authHeader "Bearer "
    if tokenString = "" then .err "invalid authorization format"
    else .ok tokenString

/-- auth.HTTPMiddleware wrapping the gateway mux. -/
def httpMiddleware (validate : String → Bool) (r : HTTPRequest) : CallOutcome :=
  if ¬ isProtectedRequest r then .handlerReached false
  else
    match extractTokenFromHeader r.authorization with
    | .err msg => .rejected msg
    | .ok tok =>
      if validate tok then .handlerReached true
      else .rejected "invalid token"

/-! ## Transport handlers (internal/company/handlers) -/

/-- pb.Company: proto3 message; the enum field is an open int32. -/
structure PbCompany where
  id : String
  name : String
  description : String
  employees : Int
  registered : Bool
  type : Int
  deriving DecidableEq

/-- handlers.normalizeCompanyType: the four recognized enum values map
to their constants, everything else (including UNSPECIFIED = 0) falls
to the default branch and becomes Corporations. -/
def normalizeCompanyType (n : Int) : CompanyType :=
  if n = 1 then Corporations
  else if n = 2 then NonProfit
  else if n = 3 then Cooperative
  else if n = 4 then SoleProprietorship
  else Corporations

/-- pb.CompanyType.String() of the generated code: the registered name
for known values, the decimal numeral otherwise. -/
def pbTypeString (n : Int) : String :=
  if n = 0 then "UNSPECIFIED"
  else if n = 1 then "CORPORATIONS"
  else if n = 2 then "NON_PROFIT"
  else if n = 3 then "COOPERATIVE"
  else if n = 4 then "SOLE_PROPRIETORSHIP"
  else toString n

/-- handlers.protoToModel (non-nil input): copies the scalar fields and
normalizes the enum. -/
def protoToModel (pb : PbCompany) : Company :=
  { id := nilID, name := pb.name, description := pb.description,
    employees := pb.employees, registered := pb.registered,
    type := normalizeCompanyType pb.type, createdAt := 0, updatedAt := 0 }

/-- handlers.protoToUpdate (non-nil input): takes the address of every
proto field, so every pointer in the patch is non-nil, whether or not
the client set the field. -/
def protoToUpdate (pb : PbCompany) (id : CompanyID) : CompanyUpdate :=
  { id := id,
    name := some pb.name,
    description := some pb.description,
    employees := some pb.employees,
    registered := some pb.registered,
    type := some (pbTypeString pb.type) }

/-- CompanyHandler.UpdateCompany after a successful uuid.Parse of the
request id: converts the proto body and delegates to the service. -/
def handlerUpdateCompany (st : Store) (id : CompanyID) (pb : PbCompany) : ServiceResult :=
  serviceUpdate st (protoToUpdate pb id)

/-- CompanyHandler.CreateCompany (non-nil body): converts the proto
body and delegates to the service. -/
def handlerCreateCompany (st : Store) (freshId : CompanyID) (now : Nat)
    (pb : PbCompany) : ServiceResult :=
  serviceCreate st freshId now (protoToModel pb)

/-- gRPC status codes used by the handler error mapping. -/
inductive StatusCode
  | okCode | notFound | alreadyExists | invalidArgument | internal | unauthenticated
  deriving DecidableEq

/-- A grpc status error: code plus caller-visible message. -/
structure GrpcStatus where
  code : StatusCode
  message : String
  deriving DecidableEq

/-- CompanyHandler.mapServiceError: classified errors keep their own
message; everything else becomes Internal with the message produced by
fmt.Sprintf of the internal error. -/
def mapServiceError (err : GoErr) : GrpcStatus :=
  if goErrIs err errNotFound then { code := .notFound, message := err.message }
  else if goErrIs err errDuplicateName then
    { code := .alreadyExists, message := err.message }
  else if goErrIs err errInvalidInput then
    { code := .invalidArgument, message := err.message }
  else { code := .internal, message := "internal server error: " ++ err.message }

/-! ## Concrete sample data used by closed theorems -/

/-- The all-nil patch carrying only an identifier. -/
def emptyPatch (id : CompanyID) : CompanyUpdate :=
  { id := id, name := none, description := none, employees := none,
    registered := none, type := none }

/-- A stored record used in the update counterexample. -/
def sampleAcme : Company :=
  { id := 7, name := "Acme", description := "d", employees := 5,
    registered := true, type := Corporations, createdAt := 1, updatedAt := 1 }

/-- A name-only patch body: only the name field is set, the rest carry
proto3 zero values. -/
def namePatchPb : PbCompany :=
  { id := "", name := "Acme2", description := "", employees := 0,
    registered := false, type := 0 }

/-- A record sitting at the head of the full queue in the overflow
counterexample. -/
def oldCompany : Company :=
  { id := 1, name := "Old", description := "", employees := 0,
    registered := false, type := Corporations, createdAt := 0, updatedAt := 0 }

/-- The record whose event arrives against a full queue. -/
def newCompany : Company :=
  { id := 2, name := "New", description := "", employees := 0,
    registered := false, type := Corporations, createdAt := 0, updatedAt := 0 }

/-- A producer whose 1000-slot buffer is completely full. -/
def fullProducer : Producer :=
  { capacity := 1000, queue := List.replicate 1000 (CompanyCreated, oldCompany) }

/-- What the name-only patch leaves in the store: the name is replaced,
and so is every other mutable field, by the proto zero values. -/
def acmeAfterNamePatch : Company :=
  { id := 7, name := "Acme2", description := "", employees := 0,
    registered := false, type := "UNSPECIFIED", createdAt := 1, updatedAt := 1 }

/-- A create input with a 17-character name. -/
def longNameCompany : Company :=
  { id := 0, name := "0123456789abcdefg", description := "", employees := 0,
    registered := false, type := Corporations, createdAt := 0, updatedAt := 0 }

/-- A create input whose name duplicates the stored sampleAcme. -/
def dupAcmeInput : Company :=
  { id := 0, name := "Acme", description := "", employees := 1,
    registered := false, type := Corporations, createdAt := 0, updatedAt := 0 }

/-! ## Helper lemmas -/

theorem one_le_charSize (c : Char) : 1 ≤ charSize c := by
  unfold charSize
  by_cases h1 : c.val < 0x80
  · simp [h1]
  · by_cases h2 : c.val < 0x800
    · simp [h1, h2]
    · by_cases h3 : c.val < 0x10000
      · simp [h1, h2, h3]
      · simp [h1, h2, h3]

theorem length_le_golen (s : String) : s.length ≤ golen s := by
  show s.data.length ≤ (s.data.map charSize).sum
  induction s.data with
  | nil => simp
  | cons c cs ih =>
    have hc := one_le_charSize c
    simp only [List.length_cons, List.map_cons, List.sum_cons]
    omega

theorem applyUpdate_emptyPatch (id : CompanyID) (c : Company) :
    applyUpdate (emptyPatch id) c = c := rfl

/-! ## Claim theorems -/

/-- C1.  The claim fails on the HTTP transport: on the gRPC interceptor a
Get without metadata passes the gate untouched (it is not a protected
method under either the method names in the interceptor's map or the
names the generated stubs register), but the HTTP middleware treats a
GET as protected — the route map has no GET entry, the Go map lookup
yields the zero value "", and every path has "" as a prefix — so a Get
without a credential is rejected with 401 before the gateway handler
runs, contradicting the claim and the middleware's own comments. -/
theorem c1_get_unprotected_divergence :
    grpcUnary (fun _ => false) "/company.v1.CompanyService/GetCompany" none
      = .handlerReached false
    ∧ grpcUnary (fun _ => false) "/definition.v1.CompanyService/GetCompany" none
      = .handlerReached false
    ∧ isProtectedRequest { method := "GET", path := "/v1/companies/42", authorization := "" }
      = true
    ∧ httpMiddleware (fun _ => false)
        { method := "GET", path := "/v1/companies/42", authorization := "" }
      = .rejected "authorization header required" := by
  decide

/-- C3.  The two transports' extraction rules are not semantically
identical and the claim fails on both sides.  HTTP: extractTokenFromHeader
applies TrimPrefix without checking HasPrefix, so an Authorization value
lacking the Bearer prefix is passed through whole to token validation,
and when that raw value is itself a valid token the handler is reached.
gRPC: extractTokenFromMetadata does reject a missing prefix, but the
interceptor's protected-method map lists company.v1 names while the
generated stubs register definition.v1 names (the names the
interceptor's own test uses), so genuine protected calls bypass the
gate entirely and reach the handler whatever the header holds. -/
theorem c3_extraction_divergence :
    extractTokenFromHeader "my.valid.jwt" = .ok "my.valid.jwt"
    ∧ extractTokenFromMetadata ["my.valid.jwt"]
      = .err "invalid authorization format: missing Bearer prefix"
    ∧ httpMiddleware (fun t => t = "my.valid.jwt")
        { method := "PATCH", path := "/v1/companies/42", authorization := "my.valid.jwt" }
      = .handlerReached true
    ∧ grpcUnary (fun t => t = "my.valid.jwt")
        "/company.v1.CompanyService/UpdateCompany" (some ["my.valid.jwt"])
      = .rejected "invalid authorization format: missing Bearer prefix"
    ∧ protectedMethods.contains "/definition.v1.CompanyService/UpdateCompany" = false
    ∧ grpcUnary (fun _ => false)
        "/definition.v1.CompanyService/UpdateCompany" (some ["garbage"])
      = .handlerReached false := by
  decide

/-- C9 counterexample.  Two distinct unclassified internal errors are
surfaced with two distinct caller-visible messages, so the message is
not independent of the internal failure detail. -/
theorem c9_counterexample :
    (goErrIs (.sentinel "pg: connection refused") errNotFound = false
      ∧ goErrIs (.sentinel "pg: connection refused") errDuplicateName = false
      ∧ goErrIs (.sentinel "pg: connection refused") errInvalidInput = false)
    ∧ (goErrIs (.sentinel "disk quota exceeded") errNotFound = false
      ∧ goErrIs (.sentinel "disk quota exceeded") errDuplicateName = false
      ∧ goErrIs (.sentinel "disk quota exceeded") errInvalidInput = false)
    ∧ (mapServiceError (.sentinel "pg: connection refused")).message
      ≠ (mapServiceError (.sentinel "disk quota exceeded")).message := by
  decide

/-- C9 amended.  Every unclassified error maps to the Internal status
code, and its caller-visible message is the fixed text followed by the
full internal error detail — the detail is included, not hidden. -/
theorem c9_internal_error_message (e : GoErr)
    (h1 : goErrIs e errNotFound = false)
    (h2 : goErrIs e errDuplicateName = false)
    (h3 : goErrIs e errInvalidInput = false) :
    mapServiceError e
      = { code := .internal, message := "internal server error: " ++ e.message } := by
  simp [mapServiceError, h1, h2, h3]

theorem c9_internal_error_message_witness :
    mapServiceError (.sentinel "disk failure")
      = { code := .internal, message := "internal server error: disk failure" } := by
  have h := c9_internal_error_message (.sentinel "disk failure")
    (by decide) (by decide) (by decide)
  simpa [GoErr.message] using h

/-- C2 counterexample.  A stored record with description "d" is updated
through the transport handler with a patch that sets only the name; the
update succeeds with the new name, yet afterwards the stored
description is "" rather than the prior "d" — the absent field was not
left unchanged. -/
theorem c2_counterexample :
    sampleAcme.description = "d"
    ∧ (handlerUpdateCompany [sampleAcme] 7 namePatchPb).store.map Company.name
      = ["Acme2"]
    ∧ (handlerUpdateCompany [sampleAcme] 7 namePatchPb).store.map Company.description
      = [""] := by
  decide

/-- For a patch with a non-empty SET clause that matches an existing
row, the store afterwards is the row-wise merge of the patch. -/
theorem serviceUpdate_matched (st : Store) (u : CompanyUpdate)
    (hid : u.id ≠ nilID) (hset : gormSetEmpty u = false)
    (hany : st.any (fun c => c.id = u.id) = true) :
    (serviceUpdate st u).store
      = st.map fun c => if c.id = u.id then applyUpdate u c else c := by
  have hru : repoUpdate st u
      = (none, st.map fun c => if c.id = u.id then applyUpdate u c else c) := by
    unfold repoUpdate
    rw [if_neg (by simp [hset]), if_pos hany]
  unfold serviceUpdate
  rw [if_neg hid, hru]
  cases h2 : repoGetCompany
      (st.map fun c => if c.id = u.id then applyUpdate u c else c) u.id <;>
    simp [h2]

/-- For a patch with a non-empty SET clause that matches an existing
row, when the re-fetch finds the merged record the whole result is the
successful one carrying that record. -/
theorem serviceUpdate_found (st : Store) (u : CompanyUpdate) (r : Company)
    (hid : u.id ≠ nilID) (hset : gormSetEmpty u = false)
    (hany : st.any (fun c => c.id = u.id) = true)
    (hfind : (st.map fun c => if c.id = u.id then applyUpdate u c else c).find?
        (fun c => c.id = u.id) = some r) :
    serviceUpdate st u
      = { outcome := .ok r,
          store := st.map fun c => if c.id = u.id then applyUpdate u c else c,
          calls := [.update u, .get u.id],
          dispatched := [(CompanyUpdated, r)] } := by
  have hru : repoUpdate st u
      = (none, st.map fun c => if c.id = u.id then applyUpdate u c else c) := by
    unfold repoUpdate
    rw [if_neg (by simp [hset]), if_pos hany]
  have h2 : repoGetCompany
      (st.map fun c => if c.id = u.id then applyUpdate u c else c) u.id = some r := hfind
  unfold serviceUpdate
  rw [if_neg hid, hru]
  simp [h2]

/-- C2 amended.  Present-replaces and absent-unchanged holds at the
patch level (an all-nil patch merges to the identity), but the
transport handler materializes every field as present — protoToUpdate
takes the address of each proto field — so an Update through the
handler replaces all five mutable fields with the proto values,
resetting the fields the client left unset to proto3 zero values. -/
theorem c2_handler_update_overwrites (st : Store) (id : CompanyID) (pb : PbCompany)
    (hid : id ≠ nilID)
    (hmem : st.any (fun c => c.id = id) = true) :
    (handlerUpdateCompany st id pb).store
      = st.map (fun c => if c.id = id then
          { c with name := pb.name, description := pb.description,
                   employees := pb.employees, registered := pb.registered,
                   type := pbTypeString pb.type } else c)
    ∧ (∀ c : Company, applyUpdate (emptyPatch id) c = c) := by
  constructor
  · have h := serviceUpdate_matched st (protoToUpdate pb id) hid
      (by simp [gormSetEmpty, protoToUpdate]) hmem
    unfold handlerUpdateCompany
    rw [h]
    rfl
  · intro c
    exact applyUpdate_emptyPatch id c

theorem c2_handler_update_overwrites_witness :
    (handlerUpdateCompany [sampleAcme] 7 namePatchPb).store = [acmeAfterNamePatch]
    ∧ applyUpdate (emptyPatch 7) sampleAcme = sampleAcme := by
  have h := c2_handler_update_overwrites [sampleAcme] 7 namePatchPb
    (by decide) (by decide)
  refine ⟨?_, h.2 sampleAcme⟩
  rw [h.1]
  decide

/-- C4.  An update whose patch carries only a valid identifier of an
existing record succeeds: GORM's SET clause is non-empty (it carries
the non-zero patch id), the UPDATE matches the existing row, the merge
of an all-nil patch is the identity, and the service re-fetches and
returns the unchanged record — no NotFound, store unchanged, with the
write and the re-fetch both issued. -/
theorem c4_empty_patch_is_noop (st : Store) (id : CompanyID) (r : Company)
    (hid : id ≠ nilID)
    (hfind : st.find? (fun c => c.id = id) = some r) :
    (serviceUpdate st (emptyPatch id)).outcome = .ok r
    ∧ (serviceUpdate st (emptyPatch id)).store = st
    ∧ (serviceUpdate st (emptyPatch id)).calls
      = [RepoCall.update (emptyPatch id), RepoCall.get id] := by
  have hp : r.id = id := by simpa using List.find?_some hfind
  have hany : st.any (fun c => c.id = id) = true := by
    rw [List.any_eq_true]
    exact ⟨r, List.mem_of_find?_eq_some hfind, by simpa using hp⟩
  have hset : gormSetEmpty (emptyPatch id) = false := by
    simp [gormSetEmpty, emptyPatch, hid]
  have hfun : (fun c : Company => if c.id = id then applyUpdate (emptyPatch id) c else c)
      = fun c => c := by
    funext c
    rw [applyUpdate_emptyPatch, ite_self]
  have hmap : (st.map fun c => if c.id = id then applyUpdate (emptyPatch id) c else c)
      = st := by
    rw [hfun, List.map_id']
  have hfind2 : (st.map fun c => if c.id = (emptyPatch id).id
      then applyUpdate (emptyPatch id) c else c).find?
      (fun c => c.id = (emptyPatch id).id) = some r := by
    show (st.map fun c => if c.id = id then applyUpdate (emptyPatch id) c else c).find?
      (fun c => c.id = id) = some r
    rw [hmap]
    exact hfind
  have h := serviceUpdate_found st (emptyPatch id) r hid hset hany hfind2
  rw [h]
  exact ⟨rfl, hmap, rfl⟩

theorem c4_empty_patch_is_noop_witness :
    (serviceUpdate [sampleAcme] (emptyPatch 7)).outcome = .ok sampleAcme
    ∧ (serviceUpdate [sampleAcme] (emptyPatch 7)).store = [sampleAcme] := by
  have h := c4_empty_patch_is_noop [sampleAcme] 7 sampleAcme (by decide) (by decide)
  exact ⟨h.1, h.2.1⟩

/-- C5.  A create whose name is empty or longer than 15 characters, or
whose description is longer than 3000 characters, fails with an error
wrapping ErrInvalidInput before any repository interaction: the call
trace is empty and the store untouched.  (The Go checks compare byte
lengths; a string of more than n characters always has more than n
bytes, so the claimed inputs are all rejected.) -/
theorem c5_create_validation_rejects (st : Store) (freshId : CompanyID) (now : Nat)
    (c : Company)
    (h : c.name = "" ∨ 15 < c.name.length ∨ 3000 < c.description.length) :
    (∃ e, (serviceCreate st freshId now c).outcome = .err e
      ∧ goErrIs e errInvalidInput = true)
    ∧ (serviceCreate st freshId now c).store = st
    ∧ (serviceCreate st freshId now c).calls = [] := by
  unfold serviceCreate
  by_cases h1 : c.name = "" ∨ 15 < golen c.name
  · rw [if_pos h1]
    exact ⟨⟨_, rfl, by decide⟩, rfl, rfl⟩
  · have hd : c.description ≠ "" ∧ 3000 < golen c.description := by
      rcases h with h | h | h
      · exact absurd (Or.inl h) h1
      · exact absurd (Or.inr (lt_of_lt_of_le h (length_le_golen c.name))) h1
      · constructor
        · intro he
          rw [he] at h
          exact absurd h (by decide)
        · exact lt_of_lt_of_le h (length_le_golen c.description)
    rw [if_neg h1, if_pos hd]
    exact ⟨⟨_, rfl, by decide⟩, rfl, rfl⟩

theorem c5_create_validation_rejects_witness :
    15 < longNameCompany.name.length
    ∧ (serviceCreate [] 9 0 longNameCompany).store = []
    ∧ (serviceCreate [] 9 0 longNameCompany).calls = [] := by
  have h := c5_create_validation_rejects [] 9 0 longNameCompany
    (Or.inr (Or.inl (by decide)))
  exact ⟨by decide, h.2.1, h.2.2⟩

/-- C6.  A create that passes field validation and whose name the
existence check reports as already present fails with ErrDuplicateName;
the only repository call issued is the existence check — in particular
no create call — and the store is unchanged. -/
theorem c6_duplicate_name_rejected (st : Store) (freshId : CompanyID) (now : Nat)
    (c : Company)
    (hname : ¬(c.name = "" ∨ 15 < golen c.name))
    (hdesc : ¬(c.description ≠ "" ∧ 3000 < golen c.description))
    (hdup : companyExistsByName st c.name = true) :
    (serviceCreate st freshId now c).outcome = .err errDuplicateName
    ∧ (serviceCreate st freshId now c).store = st
    ∧ (serviceCreate st freshId now c).calls = [.existsByName c.name]
    ∧ ∀ c2, RepoCall.create c2 ∉ (serviceCreate st freshId now c).calls := by
  unfold serviceCreate
  rw [if_neg hname, if_neg hdesc, if_pos hdup]
  exact ⟨rfl, rfl, rfl, by simp⟩

theorem c6_duplicate_name_rejected_witness :
    (serviceCreate [sampleAcme] 9 0 dupAcmeInput).outcome = .err errDuplicateName
    ∧ (serviceCreate [sampleAcme] 9 0 dupAcmeInput).store = [sampleAcme] := by
  have h := c6_duplicate_name_rejected [sampleAcme] 9 0 dupAcmeInput
    (by decide) (by decide) (by decide)
  exact ⟨h.1, h.2.1⟩

/-- C7.  Produce is a total function of the current queue — it never
waits: with the capacity fixed at 1000 by the constructor, an arrival
at a full queue leaves the queue exactly as it was and logs a warning
carrying the event type and the record identifier, and an arrival at a
queue below capacity appends the event and logs nothing. -/
theorem c7_produce_never_blocks (p : Producer) (et : EventType) (c : Company)
    (hcap : p.capacity = 1000) :
    newProducer.capacity = 1000
    ∧ (p.queue.length = 1000 →
        (produce p et c).producer = p
        ∧ (produce p et c).warning
          = some { msg := "Kafka producer queue full, dropping event",
                   eventType := et, companyId := c.id })
    ∧ (p.queue.length < 1000 →
        (produce p et c).producer.queue = p.queue ++ [(et, c)]
        ∧ (produce p et c).warning = none) := by
  refine ⟨rfl, ?_, ?_⟩
  · intro hfull
    have hnot : ¬ p.queue.length < p.capacity := by
      rw [hcap, hfull]
      omega
    simp [produce, hnot]
  · intro hlt
    have hyes : p.queue.length < p.capacity := by
      rw [hcap]
      exact hlt
    simp [produce, hyes]

theorem c7_produce_never_blocks_witness :
    (produce fullProducer CompanyUpdated newCompany).producer = fullProducer
    ∧ (produce fullProducer CompanyUpdated newCompany).warning
      = some { msg := "Kafka producer queue full, dropping event",
               eventType := CompanyUpdated, companyId := 2 } := by
  have h := (c7_produce_never_blocks fullProducer CompanyUpdated newCompany rfl).2.1
    (by simp only [fullProducer, List.length_replicate])
  exact ⟨h.1, h.2⟩

/-- C8 counterexample.  Producing against a full queue leaves the
oldest-unconsumed event (the queue head) in place and discards the
newly produced event, so the oldest entry is not the one dropped. -/
theorem c8_counterexample :
    (produce fullProducer CompanyUpdated newCompany).producer.queue.head?
      = some (CompanyCreated, oldCompany)
    ∧ (CompanyUpdated, newCompany)
      ∉ (produce fullProducer CompanyUpdated newCompany).producer.queue := by
  have hnot : ¬ fullProducer.queue.length < fullProducer.capacity := by
    simp only [fullProducer, List.length_replicate]
    omega
  constructor
  · rw [produce, if_neg hnot]
    rfl
  · intro hmem
    rw [produce, if_neg hnot] at hmem
    have hmem2 : (CompanyUpdated, newCompany)
        ∈ List.replicate 1000 (CompanyCreated, oldCompany) := hmem
    have heq := List.eq_of_mem_replicate hmem2
    exact absurd heq (by decide)

/-- C8 amended.  When the queue is full the newly produced event is the
one dropped: the queued events (the oldest included) are untouched, the
new event is never enqueued, and the call returns with a logged warning
instead of blocking or failing. -/
theorem c8_overflow_drops_new_event (p : Producer) (et : EventType) (c : Company)
    (hfull : ¬ p.queue.length < p.capacity) :
    (produce p et c).producer.queue = p.queue
    ∧ (produce p et c).warning.isSome = true := by
  simp [produce, hfull]

theorem c8_overflow_drops_new_event_witness :
    (produce fullProducer CompanyCreated newCompany).producer.queue
      = fullProducer.queue
    ∧ (produce fullProducer CompanyCreated newCompany).warning.isSome = true := by
  have h := c8_overflow_drops_new_event fullProducer CompanyCreated newCompany
    (by simp only [fullProducer, List.length_replicate]; omega)
  exact h

/-- C10.  Any enum value outside the four recognized ones — the
unspecified zero value included — is normalized to Corporations by the
converter, with no error path: a Create through the handler that
succeeds stores the record with type Corporations. -/
theorem c10_unknown_type_normalized (st : Store) (freshId : CompanyID) (now : Nat)
    (pb : PbCompany)
    (h1 : pb.type ≠ 1) (h2 : pb.type ≠ 2) (h3 : pb.type ≠ 3) (h4 : pb.type ≠ 4) :
    normalizeCompanyType pb.type = Corporations
    ∧ (protoToModel pb).type = Corporations
    ∧ ∀ r, (handlerCreateCompany st freshId now pb).outcome = .ok r
        → r.type = Corporations := by
  have hn : normalizeCompanyType pb.type = Corporations := by
    simp [normalizeCompanyType, h1, h2, h3, h4]
  refine ⟨hn, hn, ?_⟩
  intro r hr
  unfold handlerCreateCompany serviceCreate at hr
  split at hr
  · simp at hr
  · split at hr
    · simp at hr
    · split at hr
      · simp at hr
      · simp only [SvcOutcome.ok.injEq] at hr
        rw [← hr]
        exact hn

theorem c10_unknown_type_normalized_witness :
    normalizeCompanyType 0 = Corporations
    ∧ ∀ r, (handlerCreateCompany [] 9 1 namePatchPb).outcome = .ok r
        → r.type = Corporations := by
  have h := c10_unknown_type_normalized [] 9 1 namePatchPb
    (by decide) (by decide) (by decide) (by decide)
  exact ⟨h.1, h.2.2⟩

end XM
